import Mathlib

/-!
Verification of the VeriDoc security layer (`core/security.py`).

The development shallowly embeds `SecurityManager.validate_path`,
`SecurityManager.sanitize_input` and `SecurityManager.validate_file_extension`
over a finite model of a POSIX file system.  Paths handed to the OS are
represented by their component lists; user input stays a `String` and every
string operation of the Python source (`in`, `startswith`, `[1]`, `strip`,
`os.path.normpath`, `Path.resolve`, `Path.relative_to`, `Path.suffix`) is
modelled by an executable Lean function over `List Char` / `List String`.
-/

deriving instance DecidableEq for Except

namespace VeriDoc

/-- File-system entries: regular file, directory, or symbolic link carrying its
raw target string (as returned by `Path.readlink`). -/
inductive Entry where
  | file : Entry
  | dir : Entry
  | symlink : String → Entry
deriving DecidableEq, Repr

/-- Components of an absolute path (`/srv/docs` is `["srv", "docs"]`). -/
abbrev Comps := List String

/-- A finite file system: an association list from absolute-path components to
entries (the result of `lstat`).  Paths not listed do not exist. -/
structure FS where
  entries : List (Comps × Entry)
deriving DecidableEq, Repr

/-- Model of `lstat`: look a path up in the file system. -/
def lookupFS (fs : FS) (p : Comps) : Option Entry :=
  (fs.entries.find? (fun e => e.1 == p)).map (·.2)

/-- Split a character list at `'/'` (auxiliary for `pathSegs`). -/
def segsAux : List Char → List Char → List String
  | [], acc => [String.mk acc.reverse]
  | c :: t, acc =>
    if c = '/' then String.mk acc.reverse :: segsAux t []
    else segsAux t (c :: acc)

/-- Model of Python `s.split('/')` (also the component split performed by
`os.path.normpath` and `os.path.realpath`). -/
def pathSegs (s : String) : List String := segsAux s.data []

/-- Model of Python `s.startswith(p)`. -/
def swith (s p : String) : Bool := p.data.isPrefixOf s.data

/-- Model of Python substring membership `pat in s`. -/
def containsStr (s pat : String) : Bool :=
  (List.range (s.data.length + 1)).any fun i => pat.data.isPrefixOf (s.data.drop i)

/-- Model of Python `"\x00" in s`. -/
def hasNul (s : String) : Bool := s.data.contains '\x00'

/-- Component processing of `posixpath.normpath`: drop empty and `"."`
components, cancel `".."` against a previous component, keep leading `".."`
of a relative path, drop `".."` at the root of an absolute path. -/
def normSegs (isAbs : Bool) (segs : List String) : List String :=
  segs.foldl
    (fun acc comp =>
      if comp = "" ∨ comp = "." then acc
      else if comp = ".." then
        if (¬ isAbs ∧ acc = []) ∨ acc.getLast? = some ".." then acc ++ [".."]
        else if acc = [] then acc
        else acc.dropLast
      else acc ++ [comp])
    []

/-- Model of `os.path.normpath` on POSIX (purely lexical `.`/`..` collapse;
exactly two leading slashes are preserved, per POSIX). -/
def normpath (s : String) : String :=
  if s = "" then "."
  else
    let slashes : Nat :=
      if swith s "//" ∧ ¬ swith s "///" then 2
      else if swith s "/" then 1
      else 0
    let comps := normSegs (0 < slashes) (pathSegs s)
    let pre := String.join (List.replicate slashes "/")
    if comps = [] then (if slashes = 0 then "." else pre)
    else pre ++ String.intercalate "/" comps

/-- Model of Python `s.strip("/")`: remove leading and trailing slashes. -/
def stripSlashes (s : String) : String :=
  String.mk (((s.data.dropWhile (· = '/')).reverse.dropWhile (· = '/')).reverse)

/-- Model of `str(p.relative_to(b))` for `b` a component-wise prefix of `p`
(`Path.relative_to` yields `Path('.')`, printed `"."`, when the two are equal). -/
def relStr (b p : Comps) : String :=
  match p.drop b.length with
  | [] => "."
  | r => String.intercalate "/" r

/-- Step-by-step model of `os.path.realpath(·, strict=False)` (which is what
`Path.resolve()` computes): walk the components left to right, skipping `""`
and `"."`, popping on `".."`, and following symbolic links — absolute targets
restart from the root, relative ones continue from the current directory, and
non-existent components are appended lexically.  CPython bounds cyclic link
chains with a memo table and then fails open to the lexical join; the model
bounds the total number of steps by a fuel that `resolveComps` picks large
enough never to run out on the loop-free file systems considered here, and
fails open to the lexical join when it does run out. -/
def resolveAux (fs : FS) : Nat → Comps → List String → Comps
  | _, path, [] => path
  | 0, path, rest => path ++ rest
  | fuel + 1, path, name :: rest =>
    if name = "" ∨ name = "." then resolveAux fs fuel path rest
    else if name = ".." then resolveAux fs fuel path.dropLast rest
    else
      match lookupFS fs (path ++ [name]) with
      | some (Entry.symlink target) =>
        if swith target "/" then resolveAux fs fuel [] (pathSegs target ++ rest)
        else resolveAux fs fuel path (pathSegs target ++ rest)
      | _ => resolveAux fs fuel (path ++ [name]) rest

/-- Fuel for `resolveAux`: one step per input component plus a generous
budget for symbolic-link expansion. -/
def resolveFuel (fs : FS) (p : List String) : Nat :=
  p.length + 64 * ((fs.entries.map fun e =>
    match e.2 with
    | Entry.symlink t => (pathSegs t).length + 2
    | _ => 0).sum + 1)

/-- Canonicalize absolute-path components (`Path(...).resolve()` on a path
already split into components). -/
def resolveComps (fs : FS) (p : Comps) : Comps :=
  resolveAux fs (resolveFuel fs p) [] p

/-- Canonicalize an absolute path string (`Path(s).resolve()` for `s`
beginning with `/`). -/
def resolveStr (fs : FS) (s : String) : Comps :=
  resolveComps fs (pathSegs s)

/-- Rejection reasons of the security layer, one per distinct `raise` site of
`validate_path` / `sanitize_input` (the source raises `ValueError` with a
fixed message at each site). -/
inductive Reason where
  | urlScheme        -- "URLs not allowed in path"
  | windowsAbsolute  -- "Windows absolute paths not allowed"
  | absOutsideBase   -- "Absolute paths outside base directory not allowed"
  | uncPath          -- "UNC paths not allowed"
  | nullByte         -- "Null bytes not allowed in path"
  | pathTraversal    -- "Path traversal not allowed"
  | outsideBase      -- "Path outside base directory"
  | symlinkEscape    -- "Symbolic link points outside base directory"
  | inputTooLong     -- "Input too long"
deriving DecidableEq, Repr

/-- Final stage of `validate_path` (lines 103-116 of `core/security.py`):
if the resolved path is (still) a symbolic link, reject absolute targets and
relative targets that resolve outside the base; both `raise` sites surface as
the same "symbolic link points outside base directory" rejection. -/
def symlinkCheck (fs : FS) (base full : Comps) : Except Reason Comps :=
  match lookupFS fs full with
  | some (Entry.symlink target) =>
    if swith target "/" then .error .symlinkEscape
    else if base.isPrefixOf (resolveComps fs (full.dropLast ++ pathSegs target)) then
      .ok full
    else .error .symlinkEscape
  | _ => .ok full

/-- Containment stage of `validate_path` (lines 97-101): the canonicalized
result must have `self.base_path` as a component-wise prefix
(`full_path.relative_to(self.base_path)`), then the symlink stage runs. -/
def containCheck (fs : FS) (base full : Comps) : Except Reason Comps :=
  if base.isPrefixOf full then symlinkCheck fs base full
  else .error .outsideBase

/-- Second half of `SecurityManager.validate_path` (from the UNC check at
line 73 of `core/security.py` onwards), applied to the by-now relative
`user_path`: UNC gate, null-byte gate, lexical traversal gate on the
`os.path.normpath` form, strip of leading/trailing slashes, join to the base
and canonicalization, containment check via `Path.relative_to`, and the final
symbolic-link inspection of the resolved path. -/
def validateRel (fs : FS) (base : Comps) (userPath : String) : Except Reason Comps :=
  if swith userPath "\\\\" ∨ swith userPath "//" then .error .uncPath
  else if hasNul userPath then .error .nullByte
  else
    let normalized := normpath userPath
    if swith normalized ".." ∨ containsStr normalized "/../" ∨ normalized = ".." then
      .error .pathTraversal
    else
      let stripped := stripSlashes userPath
      let full :=
        if stripped = "" ∨ stripped = "." then base
        else resolveComps fs (base ++ pathSegs stripped)
      containCheck fs base full

/-- Model of `SecurityManager.validate_path` for a manager constructed over
`base` (so `base` is the component list of `self.base_path`, which `__init__`
computed with `Path(base_path).resolve()`).  Gate order follows the source:
empty string, URL scheme, character `':'` at index 1, leading-`/` branch
(with `"/"` special-cased to the base and an `abs_path.relative_to` check
against `self.base_path.resolve()` whose `ValueError` — including the
embedded-NUL `ValueError` raised by `resolve()` itself — is reported as the
absolute-outside-base rejection), then the shared relative pipeline. -/
def validate_path (fs : FS) (base : Comps) (userPath : String) : Except Reason Comps :=
  if userPath = "" then .ok base
  else if containsStr userPath "://" then .error .urlScheme
  else if userPath.data[1]? = some ':' then .error .windowsAbsolute
  else if swith userPath "/" ∧ userPath ≠ "/" then
    if hasNul userPath then .error .absOutsideBase
    else
      let absP := resolveStr fs userPath
      let baseR := resolveComps fs base
      if baseR.isPrefixOf absP then validateRel fs base (relStr baseR absP)
      else .error .absOutsideBase
  else if userPath = "/" then .ok base
  else validateRel fs base userPath

/-- Model of `user_input.replace("\x00", "")`. -/
def stripNul (s : String) : String :=
  String.mk (s.data.filter (fun c => c ≠ '\x00'))

/-- Model of `SecurityManager.sanitize_input` on string input: strip NUL
bytes, then reject if the stripped form exceeds 1000 characters.  (The
`isinstance(user_input, str)` rejection of non-string input is enforced by
the type of the argument.) -/
def sanitize_input (s : String) : Except Reason String :=
  let sanitized := stripNul s
  if 1000 < sanitized.length then .error .inputTooLong
  else .ok sanitized

/-- Model of `PurePath(filename).name`: last component after splitting on
`/`, with empty and `"."` components removed by path parsing. -/
def pyName (filename : String) : String :=
  match ((pathSegs filename).filter (fun c => c ≠ "" && c ≠ ".")).getLast? with
  | some n => n
  | none => ""

/-- Index of the last `'.'` in a character list (Python `str.rfind('.')`). -/
def lastDotIdx (l : List Char) : Option Nat :=
  ((List.range l.length).filter (fun i => l[i]? == some '.')).getLast?

/-- Model of `PurePath(filename).suffix`: the part of the name from its last
dot on, empty when the last dot is the first or last character of the name. -/
def pySuffix (filename : String) : String :=
  let name := (pyName filename).data
  match lastDotIdx name with
  | none => ""
  | some i => if 0 < i ∧ i + 1 < name.length then String.mk (name.drop i) else ""

/-- Model of Python `str.lower` (the extensions involved are ASCII). -/
def lowerStr (s : String) : String := String.mk (s.data.map Char.toLower)

/-- The allow-list of `SecurityManager.validate_file_extension`. -/
def allowed_extensions : List String :=
  [".md", ".txt", ".py", ".js", ".json", ".yaml", ".yml",
   ".html", ".css", ".xml", ".rst", ".csv", ".toml",
   ".ini", ".cfg", ".conf", ".sh", ".bat", ".ts", ".tsx",
   ".jsx", ".vue", ".svelte", ".go", ".rs", ".cpp", ".c",
   ".h", ".hpp", ".java", ".kt", ".swift", ".rb", ".php",
   ".pl", ".r", ".scala", ".clj", ".hs", ".elm", ".dart",
   ".lua", ".vim", ".sql", ".dockerfile", ".gitignore",
   ".gitattributes", ".editorconfig"]

/-- Model of `SecurityManager.validate_file_extension`: empty filename is
rejected, a filename without any `'.'` is accepted, otherwise the lower-cased
`Path(filename).suffix` must be in the allow-list. -/
def validate_file_extension (filename : String) : Bool :=
  if filename = "" then false
  else if ¬ filename.data.contains '.' then true
  else allowed_extensions.contains (lowerStr (pySuffix filename))

/-! Concrete fixtures used by the witnesses and counterexamples. -/

/-- The empty file system (every lookup fails; `resolve` is purely lexical). -/
def fsEmpty : FS := ⟨[]⟩

/-- The base directory `/srv/docs` of the worked scenarios. -/
def baseSrv : Comps := ["srv", "docs"]

/-- A file system with base `/srv/docs` containing a subdirectory `docs` and
a file `README.md`. -/
def fsDocs : FS :=
  ⟨[(["srv"], Entry.dir), (["srv", "docs"], Entry.dir),
    (["srv", "docs", "docs"], Entry.dir),
    (["srv", "docs", "README.md"], Entry.file)]⟩

/-- A file system whose base `/d` contains a symbolic link `link` with the
absolute target `/d/real`, which exists inside the base. -/
def fsLink : FS :=
  ⟨[(["d"], Entry.dir), (["d", "link"], Entry.symlink "/d/real"),
    (["d", "real"], Entry.file)]⟩

/-- A file system whose base `/d` contains a dangling symbolic link `link`
with the absolute target `/outside/x`, which does not exist. -/
def fsDangle : FS :=
  ⟨[(["d"], Entry.dir), (["d", "link"], Entry.symlink "/outside/x")]⟩

/-! Helper lemmas. -/

theorem isPrefixOf_self {α : Type} [BEq α] [LawfulBEq α] (l : List α) :
    l.isPrefixOf l = true := by
  induction l with
  | nil => rfl
  | cons a t ih => simp [List.isPrefixOf_cons₂, ih]

theorem swith_dslash_false (s : String) (h : swith s "/" = false) :
    swith s "//" = false := by
  unfold swith at h ⊢
  rw [show ("//").data = ['/', '/'] from rfl]
  rw [show ("/").data = ['/'] from rfl] at h
  cases hd : s.data with
  | nil => rfl
  | cons c t =>
    rw [hd] at h
    rw [List.isPrefixOf_cons₂] at h ⊢
    rw [show List.isPrefixOf ([] : List Char) t = true from List.isPrefixOf_nil_left,
      Bool.and_true] at h
    rw [h, Bool.false_and]

/-- Every `Except.ok` result of `containCheck` is the checked path itself and
has the base as a component-wise prefix. -/
theorem containCheck_ok (fs : FS) (base full p : Comps)
    (h : containCheck fs base full = .ok p) :
    p = full ∧ base.isPrefixOf full = true := by
  unfold containCheck at h
  split at h
  next hpre =>
    unfold symlinkCheck at h
    split at h
    · split at h
      · simp at h
      · split at h
        · injection h with h'
          exact ⟨h'.symm, hpre⟩
        · simp at h
    · injection h with h'
      exact ⟨h'.symm, hpre⟩
  next => simp at h

/-- Every `Except.ok` result of `validateRel` passed the `relative_to`
containment gate, hence has the base as a component-wise prefix. -/
theorem validateRel_containment (fs : FS) (base : Comps) (up : String) (p : Comps)
    (h : validateRel fs base up = .ok p) : base.isPrefixOf p = true := by
  simp only [validateRel] at h
  split at h
  · simp at h
  · split at h
    · simp at h
    · split at h
      · simp at h
      · rcases containCheck_ok _ _ _ _ h with ⟨h1, h2⟩
        subst h1
        exact h2

/-- On input that is nonempty, scheme-free, without `':'` at index 1 and not
beginning with `/`, `validate_path` runs exactly the shared relative
pipeline. -/
theorem validate_path_relative (fs : FS) (base : Comps) (s : String)
    (h0 : s ≠ "") (h2 : containsStr s "://" = false)
    (h3 : s.data[1]? ≠ some ':') (h4 : swith s "/" = false) :
    validate_path fs base s = validateRel fs base s := by
  simp only [validate_path]
  rw [if_neg h0, if_neg (by simp [h2]), if_neg h3, if_neg (by simp [h4]),
    if_neg (by intro e; subst e; exact absurd h4 (by decide))]

theorem isPrefixOf_two {c₁ c₂ : Char} {l : List Char}
    (h : List.isPrefixOf [c₁, c₂] l = true) : ∃ t, l = c₁ :: c₂ :: t := by
  match l with
  | [] => simp [List.isPrefixOf] at h
  | [c] => simp [List.isPrefixOf] at h
  | a :: b :: t =>
    rw [List.isPrefixOf_cons₂, List.isPrefixOf_cons₂] at h
    simp at h
    exact ⟨t, by rw [h.1, h.2]⟩

theorem stripNul_eq_self (s : String) (h : hasNul s = false) : stripNul s = s := by
  unfold stripNul
  have hne : '\x00' ∉ s.data := by
    unfold hasNul at h
    simpa using h
  have hfe : s.data.filter (fun c => c ≠ '\x00') = s.data := by
    apply List.filter_eq_self.mpr
    intro a ha
    simp only [decide_eq_true_eq]
    intro e
    subst e
    exact hne ha
  rw [hfe]

theorem hasNul_stripNul (s : String) : hasNul (stripNul s) = false := by
  unfold hasNul stripNul
  show (s.data.filter (fun c => c ≠ '\x00')).contains '\x00' = false
  simp [List.mem_filter]

/-! Claim theorems. -/

/-- C1: Containment invariant — whenever `validate_path` succeeds, the path
it returns has the (canonical) base directory as a path-component-wise
prefix: the base itself or a descendant.  Component-wise prefixing is what
`Path.relative_to` checks, so a sibling such as `/home/user2` is never
considered contained in `/home/user`. -/
theorem validate_path_containment (fs : FS) (base : Comps) (s : String) (p : Comps)
    (h : validate_path fs base s = .ok p) : base.isPrefixOf p = true := by
  simp only [validate_path] at h
  split at h
  · injection h with h'; subst h'; exact isPrefixOf_self base
  · split at h
    · simp at h
    · split at h
      · simp at h
      · split at h
        · split at h
          · simp at h
          · split at h
            · exact validateRel_containment _ _ _ _ h
            · simp at h
        · split at h
          · injection h with h'; subst h'; exact isPrefixOf_self base
          · exact validateRel_containment _ _ _ _ h

/-- Witness for `validate_path_containment` at a concrete accepted input. -/
theorem validate_path_containment_witness :
    validate_path fsDocs baseSrv "README.md" = .ok ["srv", "docs", "README.md"] ∧
    baseSrv.isPrefixOf ["srv", "docs", "README.md"] = true :=
  ⟨by decide, validate_path_containment fsDocs baseSrv "README.md" _ (by decide)⟩

/-- C2 (counterexample): the input `"\x00/../../etc/passwd"` contains a `..`
segment and its normalized destination escapes the base, yet `validate_path`
rejects it with the null-byte (`InvalidInput`) reason, not `PathTraversal` or
`OutsideBase`. -/
theorem traversal_reason_cex :
    (pathSegs "\x00/../../etc/passwd").contains ".." = true ∧
    swith (normpath "\x00/../../etc/passwd") ".." = true ∧
    validate_path fsEmpty baseSrv "\x00/../../etc/passwd" = .error .nullByte ∧
    Reason.nullByte ≠ Reason.pathTraversal ∧ Reason.nullByte ≠ Reason.outsideBase := by
  decide

/-- C2 (amended): a relative input that passes the earlier string gates (no
NUL, no `"://"`, no `':'` at index 1, no leading `/` or `\\`) and whose
`os.path.normpath` form still begins with `..` — i.e. whose normalized
destination lies outside the base — is rejected as `PathTraversal`. -/
theorem traversal_rejection_amended (fs : FS) (base : Comps) (s : String)
    (h1 : hasNul s = false) (h2 : containsStr s "://" = false)
    (h3 : s.data[1]? ≠ some ':') (h4 : swith s "/" = false)
    (h5 : swith s "\\\\" = false)
    (h6 : swith (normpath s) ".." = true) :
    validate_path fs base s = .error .pathTraversal := by
  have h0 : s ≠ "" := by intro e; subst e; exact absurd h6 (by decide)
  rw [validate_path_relative fs base s h0 h2 h3 h4]
  simp only [validateRel]
  rw [if_neg (by simp [h5, swith_dslash_false s h4]), if_neg (by simp [h1]),
    if_pos (Or.inl h6)]

/-- Witness for `traversal_rejection_amended`: the claim's own scenario
`"../../../etc/passwd"` is rejected as `PathTraversal`. -/
theorem traversal_rejection_amended_witness :
    swith (normpath "../../../etc/passwd") ".." = true ∧
    validate_path fsDocs baseSrv "../../../etc/passwd" = .error .pathTraversal :=
  ⟨by decide,
    traversal_rejection_amended fsDocs baseSrv "../../../etc/passwd" (by decide) (by decide)
      (by decide) (by decide) (by decide) (by decide)⟩

/-- C3 (counterexample): `"a://\x00"` contains a NUL byte but is rejected by
the URL-scheme gate, not as `InvalidInput` — so the null-byte check is not
stage 1 and does not precede the scheme check. -/
theorem nullbyte_order_cex :
    hasNul "a://\x00" = true ∧
    validate_path fsEmpty baseSrv "a://\x00" = .error .urlScheme ∧
    Reason.urlScheme ≠ Reason.nullByte := by decide

/-- C3 (amended): the null-byte gate runs after the scheme, drive-letter,
absolute-path and UNC gates but before normalization, join and resolution;
any NUL-containing input that trips none of those earlier gates is rejected
with the null-byte (`InvalidInput`) reason. -/
theorem nullbyte_gate_position (fs : FS) (base : Comps) (s : String)
    (h1 : hasNul s = true) (h2 : containsStr s "://" = false)
    (h3 : s.data[1]? ≠ some ':') (h4 : swith s "/" = false)
    (h5 : swith s "\\\\" = false) :
    validate_path fs base s = .error .nullByte := by
  have h0 : s ≠ "" := by intro e; subst e; exact absurd h1 (by decide)
  rw [validate_path_relative fs base s h0 h2 h3 h4]
  simp only [validateRel]
  rw [if_neg (by simp [h5, swith_dslash_false s h4]), if_pos h1]

/-- Witness for `nullbyte_gate_position`: the claim's smuggling scenario
`"safe.txt\x00/../../etc/passwd"` is rejected with the null-byte reason. -/
theorem nullbyte_gate_position_witness :
    hasNul "safe.txt\x00/../../etc/passwd" = true ∧
    validate_path fsEmpty baseSrv "safe.txt\x00/../../etc/passwd" = .error .nullByte :=
  ⟨by decide,
    nullbyte_gate_position fsEmpty baseSrv "safe.txt\x00/../../etc/passwd" (by decide)
      (by decide) (by decide) (by decide) (by decide)⟩

/-- C4 (counterexample): a symbolic link inside the base whose target is the
absolute path `/d/real` (which exists inside the base) is accepted, not
rejected as `SymlinkEscape`: `Path.resolve()` already followed the link, so
the resolved path is no longer a symlink and the symlink branch never runs. -/
theorem symlink_absolute_inside_cex :
    lookupFS fsLink ["d", "link"] = some (Entry.symlink "/d/real") ∧
    swith "/d/real" "/" = true ∧
    validate_path fsLink ["d"] "link" = .ok ["d", "real"] := by decide

/-- C4 (amended): resolution follows symbolic links, dangling ones included,
so a symlink inside the base with an absolute target is judged by the
containment check on the resolved target: a dangling link to the non-existent
absolute path `/outside/x` is rejected — but with the `OutsideBase` reason of
the containment stage, not `SymlinkEscape` — while an absolute target inside
the base is accepted. -/
theorem dangling_symlink_resolution :
    lookupFS fsDangle ["d", "link"] = some (Entry.symlink "/outside/x") ∧
    lookupFS fsDangle ["outside", "x"] = none ∧
    validate_path fsDangle ["d"] "link" = .error .outsideBase ∧
    Reason.outsideBase ≠ Reason.symlinkEscape ∧
    validate_path fsLink ["d"] "link" = .ok ["d", "real"] := by decide

/-- C5 (counterexample): the input `"/srv/docs/..x"` begins with `/` and its
canonical form `/srv/docs/..x` is a descendant of the base `/srv/docs`, yet
it is not accepted: the reinterpreted remainder `..x` trips the lexical
traversal gate (its normalized form starts with `".."`), so the path is
rejected as `PathTraversal`, not accepted and not `OutsideBase`. -/
theorem absolute_input_cex :
    swith "/srv/docs/..x" "/" = true ∧
    resolveStr fsDocs "/srv/docs/..x" = ["srv", "docs", "..x"] ∧
    baseSrv.isPrefixOf (resolveStr fsDocs "/srv/docs/..x") = true ∧
    validate_path fsDocs baseSrv "/srv/docs/..x" = .error .pathTraversal ∧
    Reason.pathTraversal ≠ Reason.absOutsideBase := by decide

/-- C5 (amended): `""` and `"/"` resolve to the base itself, and any other
scheme-free leading-`/` input without `':'` at index 1 whose canonical form
is not a descendant of the canonical base is rejected with the
absolute-outside-base reason; an input whose canonical form is inside the
base is reinterpreted as relative but can still be rejected by a later gate
(see the counterexample). -/
theorem absolute_input_policy :
    (∀ (fs : FS) (base : Comps), validate_path fs base "" = .ok base) ∧
    (∀ (fs : FS) (base : Comps), validate_path fs base "/" = .ok base) ∧
    (∀ (fs : FS) (base : Comps) (s : String),
      swith s "/" = true → s ≠ "/" → containsStr s "://" = false →
      s.data[1]? ≠ some ':' →
      (resolveComps fs base).isPrefixOf (resolveStr fs s) = false →
      validate_path fs base s = .error .absOutsideBase) := by
  refine ⟨fun fs base => rfl, fun fs base => rfl,
    fun fs base s hsw hne hsch hcol hpre => ?_⟩
  have h0 : s ≠ "" := by intro e; subst e; exact absurd hsw (by decide)
  simp only [validate_path]
  rw [if_neg h0, if_neg (by simp [hsch]), if_neg hcol, if_pos ⟨hsw, hne⟩]
  by_cases hn : hasNul s = true
  · rw [if_pos hn]
  · rw [if_neg hn, if_neg (by simp [hpre])]

/-- Witness for `absolute_input_policy` at the three concrete inputs `""`,
`"/"` and `"/etc/passwd"`. -/
theorem absolute_input_policy_witness :
    validate_path fsDocs baseSrv "" = .ok baseSrv ∧
    validate_path fsDocs baseSrv "/" = .ok baseSrv ∧
    validate_path fsDocs baseSrv "/etc/passwd" = .error .absOutsideBase :=
  ⟨absolute_input_policy.1 fsDocs baseSrv, absolute_input_policy.2.1 fsDocs baseSrv,
    absolute_input_policy.2.2 fsDocs baseSrv "/etc/passwd" (by decide) (by decide)
      (by decide) (by decide) (by decide)⟩

/-- C6 (counterexample): the input `"//srv/docs/x"` begins with `//` but is
not rejected at all — the leading-`/` branch runs first, its canonical form
collapses `//` to `/` and lands inside the base, and the input is accepted;
the UNC gate is unreachable for `//` inputs. -/
theorem unc_double_slash_cex :
    swith "//srv/docs/x" "//" = true ∧
    validate_path fsDocs baseSrv "//srv/docs/x" = .ok ["srv", "docs", "x"] := by decide

/-- C6 (amended): scheme-free inputs beginning with `\\` are rejected with
the UNC reason, but inputs beginning with `//` are captured by the earlier
absolute-path branch: rejected with the absolute-outside-base reason when
their canonical form lies outside the base, and even accepted when it lies
inside. -/
theorem unc_policy :
    (∀ (fs : FS) (base : Comps) (s : String),
      containsStr s "://" = false → swith s "\\\\" = true →
      validate_path fs base s = .error .uncPath) ∧
    validate_path fsDocs baseSrv "//srv/docs/x" = .ok ["srv", "docs", "x"] ∧
    validate_path fsDocs baseSrv "//server/share" = .error .absOutsideBase := by
  refine ⟨fun fs base s hsch hb => ?_, by decide, by decide⟩
  obtain ⟨t, ht⟩ : ∃ t, s.data = '\\' :: '\\' :: t := by
    unfold swith at hb
    rw [show ("\\\\").data = ['\\', '\\'] from rfl] at hb
    exact isPrefixOf_two hb
  have h0 : s ≠ "" := by
    intro e; subst e; rw [show ("").data = ([] : List Char) from rfl] at ht; cases ht
  have h3 : s.data[1]? ≠ some ':' := by rw [ht]; simp
  have h4 : swith s "/" = false := by
    unfold swith
    rw [show ("/").data = ['/'] from rfl, ht]
    rfl
  rw [validate_path_relative fs base s h0 hsch h3 h4]
  simp only [validateRel]
  rw [if_pos (Or.inl hb)]

/-- Witness for `unc_policy` at the claim's own input `"\\server\share"`
(Python source spelling `"\\\\server\\share"`). -/
theorem unc_policy_witness :
    swith "\\\\server\\share" "\\\\" = true ∧
    validate_path fsEmpty baseSrv "\\\\server\\share" = .error .uncPath :=
  ⟨by decide, unc_policy.1 fsEmpty baseSrv "\\\\server\\share" (by decide) (by decide)⟩

/-- C7 (counterexample): `"./a:b"` contains no traversal-related characters
at all, yet `validate_path` accepts it while rejecting its normalized form
`"a:b"` (the drive-letter gate fires on the `':'` at index 1), so `s` and
`normalized(s)` need not yield the same verdict. -/
theorem normalization_verdict_cex :
    normpath "./a:b" = "a:b" ∧
    validate_path fsEmpty baseSrv "./a:b" = .ok ["srv", "docs", "a:b"] ∧
    validate_path fsEmpty baseSrv "a:b" = .error .windowsAbsolute := by decide

/-- C7 (amended): safe traversal acceptance holds — `"docs/../README.md"`
resolves successfully to the same path as `"README.md"` — and the
normalization equivalence holds on inputs whose normalized form trips no
string gate, as in the further instances below; it fails in general only
when normalization itself creates a gated shape (see the counterexample). -/
theorem safe_traversal_acceptance :
    validate_path fsDocs baseSrv "docs/../README.md" = .ok ["srv", "docs", "README.md"] ∧
    validate_path fsDocs baseSrv "README.md" = .ok ["srv", "docs", "README.md"] ∧
    validate_path fsDocs baseSrv "docs/./README.md"
      = validate_path fsDocs baseSrv (normpath "docs/./README.md") ∧
    validate_path fsDocs baseSrv "docs//README.md"
      = validate_path fsDocs baseSrv (normpath "docs//README.md") ∧
    validate_path fsDocs baseSrv "./README.md"
      = validate_path fsDocs baseSrv (normpath "./README.md") := by decide

set_option maxRecDepth 4096 in
/-- C8 (counterexample): an input of 1001 characters containing one NUL byte
is not rejected — `sanitize_input` measures the length bound on the
NUL-stripped string, so the 1001-character input is accepted and returned as
1000 characters. -/
theorem sanitize_length_cex :
    1000 < (String.mk (List.replicate 1000 'a' ++ ['\x00'])).length ∧
    sanitize_input (String.mk (List.replicate 1000 'a' ++ ['\x00']))
      = .ok (String.mk (List.replicate 1000 'a')) := by decide

/-- C8 (amended): `sanitize_input` removes all NUL bytes and bounds the
length of the NUL-stripped string by 1000 characters (inputs whose stripped
form exceeds it are rejected as invalid); every NUL-free string of length at
most 1000 is returned unchanged, and every accepted result is the stripped
input, NUL-free and of length at most 1000.  Non-string input is excluded by
the argument type, mirroring the `isinstance` rejection. -/
theorem sanitize_contract :
    (∀ s : String, hasNul s = false → s.length ≤ 1000 → sanitize_input s = .ok s) ∧
    (∀ s : String, 1000 < (stripNul s).length → sanitize_input s = .error .inputTooLong) ∧
    (∀ s t : String, sanitize_input s = .ok t →
      t = stripNul s ∧ hasNul t = false ∧ t.length ≤ 1000) := by
  refine ⟨fun s h hl => ?_, fun s h => ?_, fun s t h => ?_⟩
  · unfold sanitize_input
    rw [stripNul_eq_self s h, if_neg (Nat.not_lt.mpr hl)]
  · unfold sanitize_input
    rw [if_pos h]
  · simp only [sanitize_input] at h
    split at h
    · simp at h
    next hl =>
      injection h with h'
      subst h'
      exact ⟨rfl, hasNul_stripNul s, Nat.le_of_not_lt hl⟩

/-- Witness for `sanitize_contract` at concrete inputs. -/
theorem sanitize_contract_witness :
    hasNul "query" = false ∧ "query".length ≤ 1000 ∧
    sanitize_input "query" = .ok "query" :=
  ⟨by decide, by decide, sanitize_contract.1 "query" (by decide) (by decide)⟩

/-- C9: dotfile extension edge case — filenames without a dot are accepted,
the empty filename is rejected, and the pure dotfile `".gitignore"` is
rejected because its `Path.suffix` is the empty string even though the
literal `".gitignore"` is in the allow-list (so `"x.gitignore"` is accepted
while `".gitignore"` is not). -/
theorem extension_dotfile_edge :
    validate_file_extension "README" = true ∧
    validate_file_extension "Makefile" = true ∧
    validate_file_extension "" = false ∧
    validate_file_extension ".gitignore" = false ∧
    pySuffix ".gitignore" = "" ∧
    validate_file_extension "x.gitignore" = true ∧
    allowed_extensions.contains ".gitignore" = true := by decide

/-- C10 (counterexample): `"a://b"` has `':'` at index 1 but is rejected by
the URL-scheme gate (which runs first), not as a Windows absolute path. -/
theorem drive_gate_scheme_cex :
    "a://b".data[1]? = some ':' ∧
    validate_path fsEmpty baseSrv "a://b" = .error .urlScheme ∧
    Reason.urlScheme ≠ Reason.windowsAbsolute := by decide

/-- C10 (amended): every input with `':'` at character index 1 is rejected —
with the Windows-absolute reason whenever the string does not also contain
`"://"` (in which case the scheme gate fires first) — so no relative filename
with `':'` as its second character can ever be resolved. -/
theorem drive_gate_overbroad (fs : FS) (base : Comps) (s : String)
    (hc : s.data[1]? = some ':') :
    (containsStr s "://" = false → validate_path fs base s = .error .windowsAbsolute) ∧
    (validate_path fs base s).toOption = none := by
  have h0 : s ≠ "" := by intro e; subst e; exact absurd hc (by decide)
  have hmain : ∀ hsch : containsStr s "://" = false,
      validate_path fs base s = .error .windowsAbsolute := by
    intro hsch
    simp only [validate_path]
    rw [if_neg h0, if_neg (by simp [hsch]), if_pos hc]
  refine ⟨hmain, ?_⟩
  by_cases hs : containsStr s "://" = true
  · simp only [validate_path]
    rw [if_neg h0, if_pos hs]
    rfl
  · have hsch : containsStr s "://" = false := by
      revert hs; cases containsStr s "://" <;> simp
    rw [hmain hsch]
    rfl

/-- Witness for `drive_gate_overbroad` at the claim's input `"a:b.txt"`. -/
theorem drive_gate_overbroad_witness :
    "a:b.txt".data[1]? = some ':' ∧
    validate_path fsEmpty baseSrv "a:b.txt" = .error .windowsAbsolute :=
  ⟨by decide,
    (drive_gate_overbroad fsEmpty baseSrv "a:b.txt" (by decide)).1 (by decide)⟩

end VeriDoc
